import Mathlib

/-!
Shallow embedding of `src/server/api/routers/payment.ts` (iyoloo-web).

The router exposes three operations over three product-specific order
tables (`iRecordVip`, `iRecordGoldCoin`, `iRecordTranslate`):

* `initializePayment` — resolves the calling user, then inserts one
  pending order row into the table selected by `productType`;
* `completePayment` — verifies a PayPal confirmation, loads the order,
  checks it is pending, then dispatches to a product-specific crediting
  delegate (`ctx.recharge.*`), re-throwing any error after logging;
* `getOrderStatus` — a pure lookup returning the stored
  `{orderNo, status, amount, payTime}`.

The database is modelled as lists of rows (`findFirst` becomes
`List.find?`), external collaborators (the PayPal verifier and the
crediting delegates) as function parameters returning `Except`, and the
crediting calls actually dispatched are collected in a trace so that
"delegate invoked exactly once with these arguments" is statable.
JavaScript numbers carry no arithmetic in this router, so monetary
amounts are modelled as `Rat` and integral payload fields as `Int`;
optional fields (`z.number().optional()`, the TypeScript non-null
assertion `!` being a runtime no-op) are modelled as `Option`.
-/

/-- TRPC error codes used by the router (`NOT_FOUND`, `BAD_REQUEST`,
`INTERNAL_SERVER_ERROR`, `PAYMENT_FAILED`). -/
inductive TRPCCode where
  | NOT_FOUND
  | BAD_REQUEST
  | INTERNAL_SERVER_ERROR
  | PAYMENT_FAILED
deriving DecidableEq, Repr

/-- An error value: either a `TRPCError` thrown by the router itself, or
an opaque error thrown by an external collaborator (the PayPal verifier
or a crediting delegate). -/
inductive Err where
  | trpc (code : TRPCCode) (message : String)
  | external (tag : String)
deriving DecidableEq, Repr

/-- A row of the `iUser` table, as used by the router: internal id,
Clerk id, and the (nullable) nickname. -/
structure iUser where
  id : Nat
  clerkId : String
  nickname : Option String
deriving DecidableEq, Repr

/-- A row of the `iRecordVip` table (fields the router reads/writes). -/
structure iRecordVip where
  orderNo : String
  buyUserId : Nat
  buyNickname : Option String
  recipientUserId : Nat
  vipLevel : Option Int
  month : Option Int
  amount : String
  payType : Int
  status : Int
  payTime : Option Int
deriving DecidableEq, Repr

/-- A row of the `iRecordGoldCoin` table. -/
structure iRecordGoldCoin where
  orderNo : String
  buyUserId : Nat
  buyNickname : Option String
  recipientUserId : Nat
  amount : String
  goldCoin : Option Int
  payType : Int
  status : Int
  payTime : Option Int
deriving DecidableEq, Repr

/-- A row of the `iRecordTranslate` table. -/
structure iRecordTranslate where
  orderNo : String
  buyUserId : Nat
  buyNickname : Option String
  recipientUserId : Nat
  characterNum : Option Int
  amount : String
  payType : Int
  status : Int
  payTime : Option Int
deriving DecidableEq, Repr

/-- The database state visible to the router: the user table and the
three order tables. `findFirst` is modelled by `List.find?`, an insert
by appending the new row. -/
structure DB where
  iUserTable : List iUser
  iRecordVipTable : List iRecordVip
  iRecordGoldCoinTable : List iRecordGoldCoin
  iRecordTranslateTable : List iRecordTranslate
deriving DecidableEq, Repr

/-- The `productType` enum `z.enum(['vip', 'svip', 'goldCoin', 'translate'])`. -/
inductive ProductType where
  | vip
  | svip
  | goldCoin
  | translate
deriving DecidableEq, Repr

/-- The `productDetails` object of `initializePayment` (all fields
optional in the zod schema). -/
structure ProductDetails where
  vipLevel : Option Int
  month : Option Int
  goldCoin : Option Int
  giveGoldCoin : Option Int
  character : Option Int
deriving DecidableEq, Repr

/-- Input of `initializePayment`. -/
structure InitInput where
  amount : String
  productType : ProductType
  productDetails : ProductDetails
deriving DecidableEq, Repr

/-- Successful result of `initializePayment`: `{success: true, orderNo}`. -/
structure InitResult where
  success : Bool
  orderNo : String
deriving DecidableEq, Repr

/-- Result of `verifyPayPalPayment`: `{verified, amount?, error?}`. -/
structure PayPalVerification where
  verified : Bool
  amount : Option Rat
  error : Option String
deriving DecidableEq, Repr

/-- Input of `completePayment`. -/
structure CompleteInput where
  orderNo : String
  paypalOrderId : String
  productType : ProductType
  expectedAmount : Rat
deriving DecidableEq, Repr

/-- Successful result of `completePayment`:
`{success: true, verificationResult}`. -/
structure CompleteResult where
  success : Bool
  verificationResult : PayPalVerification
deriving DecidableEq, Repr

/-- Input of `getOrderStatus`. -/
structure StatusInput where
  orderNo : String
  productType : ProductType
deriving DecidableEq, Repr

/-- Result of `getOrderStatus`:
`{orderNo, status, amount, payTime}` of the stored order. -/
structure StatusResult where
  orderNo : String
  status : Int
  amount : String
  payTime : Option Int
deriving DecidableEq, Repr

/-- The untyped `let order` of `completePayment` / `getOrderStatus`: a
row from whichever table the `productType` branch consulted. -/
inductive OrderRow where
  | ofVip (o : iRecordVip)
  | ofGoldCoin (o : iRecordGoldCoin)
  | ofTranslate (o : iRecordTranslate)
deriving DecidableEq, Repr

/-- `order.orderNo` (present on every variant). -/
def OrderRow.orderNo : OrderRow → String
  | .ofVip o => o.orderNo
  | .ofGoldCoin o => o.orderNo
  | .ofTranslate o => o.orderNo

/-- `order.status` (present on every variant). -/
def OrderRow.status : OrderRow → Int
  | .ofVip o => o.status
  | .ofGoldCoin o => o.status
  | .ofTranslate o => o.status

/-- `order.amount` (present on every variant). -/
def OrderRow.amount : OrderRow → String
  | .ofVip o => o.amount
  | .ofGoldCoin o => o.amount
  | .ofTranslate o => o.amount

/-- `order.payTime` (present on every variant). -/
def OrderRow.payTime : OrderRow → Option Int
  | .ofVip o => o.payTime
  | .ofGoldCoin o => o.payTime
  | .ofTranslate o => o.payTime

/-- `order.buyUserId`. -/
def OrderRow.buyUserId : OrderRow → Nat
  | .ofVip o => o.buyUserId
  | .ofGoldCoin o => o.buyUserId
  | .ofTranslate o => o.buyUserId

/-- `order.buyNickname`. -/
def OrderRow.buyNickname : OrderRow → Option String
  | .ofVip o => o.buyNickname
  | .ofGoldCoin o => o.buyNickname
  | .ofTranslate o => o.buyNickname

/-- `order.recipientUserId`. -/
def OrderRow.recipientUserId : OrderRow → Nat
  | .ofVip o => o.recipientUserId
  | .ofGoldCoin o => o.recipientUserId
  | .ofTranslate o => o.recipientUserId

/-- `order.vipLevel` — JavaScript field access on the union: `undefined`
(`none`) on a row from another table. -/
def OrderRow.vipLevel : OrderRow → Option Int
  | .ofVip o => o.vipLevel
  | _ => none

/-- `order.month`. -/
def OrderRow.month : OrderRow → Option Int
  | .ofVip o => o.month
  | _ => none

/-- `order.goldCoin`. -/
def OrderRow.goldCoin : OrderRow → Option Int
  | .ofGoldCoin o => o.goldCoin
  | _ => none

/-- `order.characterNum`. -/
def OrderRow.characterNum : OrderRow → Option Int
  | .ofTranslate o => o.characterNum
  | _ => none

/-- The shared order-lookup dispatch of `completePayment` (lines
134–146) and `getOrderStatus` (lines 205–217): `vip` and `svip` both
consult `iRecordVip`; the other two product types consult their own
table. -/
def findOrder (db : DB) (productType : ProductType) (orderNo : String) :
    Option OrderRow :=
  match productType with
  | .vip | .svip =>
      (db.iRecordVipTable.find? (fun o => o.orderNo == orderNo)).map OrderRow.ofVip
  | .goldCoin =>
      (db.iRecordGoldCoinTable.find? (fun o => o.orderNo == orderNo)).map OrderRow.ofGoldCoin
  | .translate =>
      (db.iRecordTranslateTable.find? (fun o => o.orderNo == orderNo)).map OrderRow.ofTranslate

/-- A call to one of the crediting delegates
(`ctx.recharge.rechargeVip/rechargeGoldCoin/rechargeTranslate.mutate`):
the order number, the product-specific payload taken from the stored
order row, the amount, and the PayPal order id. -/
inductive CreditPayload where
  | vip (vipLevel : Option Int) (month : Option Int)
  | goldCoin (goldCoin : Option Int)
  | translate (character : Option Int)
deriving DecidableEq, Repr

/-- The argument record passed to a crediting delegate. -/
structure CreditCall where
  orderNo : String
  payload : CreditPayload
  amount : Option Rat
  paypalOrderId : String
deriving DecidableEq, Repr

/-- The crediting dispatch of `completePayment` (lines 163–185): the
product-specific payload is read from the stored order row, the amount
is `verificationResult.amount`. -/
def mkCreditCall (input : CompleteInput) (verificationResult : PayPalVerification)
    (order : OrderRow) : CreditCall :=
  { orderNo := input.orderNo
    payload :=
      match input.productType with
      | .vip | .svip => .vip order.vipLevel order.month
      | .goldCoin => .goldCoin order.goldCoin
      | .translate => .translate order.characterNum
    amount := verificationResult.amount
    paypalOrderId := input.paypalOrderId }

/-- JavaScript `a || b` on an optional string: the default is taken when
`a` is absent (`undefined`/`null`) or the empty string (falsy). -/
def jsOrDefault (s : Option String) (d : String) : String :=
  match s with
  | some s => if s = "" then d else s
  | none => d

/-- Equality of `Except` values is decidable when it is on both sides. -/
instance instDecEqExcept {ε α : Type} [DecidableEq ε] [DecidableEq α] :
    DecidableEq (Except ε α) := fun a b =>
  match a, b with
  | .error x, .error y => decidable_of_iff (x = y) (by simp)
  | .error _, .ok _ => isFalse (by simp)
  | .ok _, .error _ => isFalse (by simp)
  | .ok x, .ok y => decidable_of_iff (x = y) (by simp)

/-- Outcome of a `completePayment` call: the returned value or thrown
error, the trace of crediting-delegate calls dispatched, and the
database state after the call (this router itself performs no writes
in `completePayment`). -/
structure CompleteOutcome where
  result : Except Err CompleteResult
  credits : List CreditCall
  db : DB
deriving DecidableEq, Repr

/-- The `catch` block of `completePayment` (lines 191–194):
`console.error(...)` then `throw error` — the error is re-thrown
unchanged, a success value passes through. -/
def catchLogRethrow (r : Except Err CompleteResult) : Except Err CompleteResult :=
  match r with
  | .error e => .error e
  | .ok v => .ok v

/-- Body of the `try` block of `completePayment` (lines 109–190):
1. verify the PayPal payment (`verifyPayPalPayment(paypalOrderId,
   expectedAmount)`); a `verified: false` result throws
   `PAYMENT_FAILED` with `verificationResult.error || "Payment
   verification failed"`;
2. load the order from the table selected by `productType`; a missing
   order throws `NOT_FOUND`; `status !== 0` throws `BAD_REQUEST`;
3. dispatch to the product-specific crediting delegate, passing the
   stored payload and `verificationResult.amount`;
returns `{success: true, verificationResult}`.
The external verifier and delegates are parameters; delegate calls are
recorded in the `credits` trace. -/
def completePaymentBody
    (verifyPayPalPayment : String → Rat → Except Err PayPalVerification)
    (recharge : CreditCall → Except Err Unit)
    (db : DB) (input : CompleteInput) : CompleteOutcome :=
  match verifyPayPalPayment input.paypalOrderId input.expectedAmount with
  | .error e => ⟨.error e, [], db⟩
  | .ok verificationResult =>
    if verificationResult.verified = false then
      ⟨.error (.trpc .PAYMENT_FAILED
          (jsOrDefault verificationResult.error "Payment verification failed")),
        [], db⟩
    else
      match findOrder db input.productType input.orderNo with
      | none => ⟨.error (.trpc .NOT_FOUND "订单不存在"), [], db⟩
      | some order =>
        if order.status ≠ 0 then
          ⟨.error (.trpc .BAD_REQUEST "订单状态异常"), [], db⟩
        else
          let call := mkCreditCall input verificationResult order
          match recharge call with
          | .error e => ⟨.error e, [call], db⟩
          | .ok _ => ⟨.ok ⟨true, verificationResult⟩, [call], db⟩

/-- `completePayment` (lines 101–195): the `try` body wrapped in the
log-and-rethrow `catch`. -/
def completePayment
    (verifyPayPalPayment : String → Rat → Except Err PayPalVerification)
    (recharge : CreditCall → Except Err Unit)
    (db : DB) (input : CompleteInput) : CompleteOutcome :=
  let body := completePaymentBody verifyPayPalPayment recharge db input
  ⟨catchLogRethrow body.result, body.credits, body.db⟩

/-- `initializePayment` (lines 23–98): resolve the calling user from
`iUser` by Clerk id (`NOT_FOUND` if absent), then insert one pending
order row (`status: 0`, `payType: 3`, `recipientUserId = buyUserId =
user.id`) into the table selected by `productType`; a persistence
failure inside the `try` block yields `INTERNAL_SERVER_ERROR` and no
row. The generated `orderNo` (`Date.now()` plus a random suffix) and
whether the single insert fails are parameters of the model. -/
def initializePayment (db : DB) (userId : String) (orderNo : String)
    (insertFails : Bool) (input : InitInput) :
    Except Err InitResult × DB :=
  match db.iUserTable.find? (fun u => u.clerkId == userId) with
  | none => (.error (.trpc .NOT_FOUND "用户不存在"), db)
  | some user =>
    if insertFails then
      (.error (.trpc .INTERNAL_SERVER_ERROR "创建订单失败"), db)
    else
      match input.productType with
      | .vip | .svip =>
        (.ok ⟨true, orderNo⟩,
          { db with iRecordVipTable := db.iRecordVipTable ++
              [{ orderNo := orderNo
                 buyUserId := user.id
                 buyNickname := user.nickname
                 recipientUserId := user.id
                 vipLevel := input.productDetails.vipLevel
                 month := input.productDetails.month
                 amount := input.amount
                 payType := 3
                 status := 0
                 payTime := none }] })
      | .goldCoin =>
        (.ok ⟨true, orderNo⟩,
          { db with iRecordGoldCoinTable := db.iRecordGoldCoinTable ++
              [{ orderNo := orderNo
                 buyUserId := user.id
                 buyNickname := user.nickname
                 recipientUserId := user.id
                 amount := input.amount
                 goldCoin := input.productDetails.goldCoin
                 payType := 3
                 status := 0
                 payTime := none }] })
      | .translate =>
        (.ok ⟨true, orderNo⟩,
          { db with iRecordTranslateTable := db.iRecordTranslateTable ++
              [{ orderNo := orderNo
                 buyUserId := user.id
                 buyNickname := user.nickname
                 recipientUserId := user.id
                 characterNum := input.productDetails.character
                 amount := input.amount
                 payType := 3
                 status := 0
                 payTime := none }] })

/-- `getOrderStatus` (lines 198–232): look the order up in the table
selected by `productType`; `NOT_FOUND` if absent, otherwise return the
stored `{orderNo, status, amount, payTime}`.  The database is returned
unchanged (pure read). -/
def getOrderStatus (db : DB) (input : StatusInput) :
    Except Err StatusResult × DB :=
  match findOrder db input.productType input.orderNo with
  | none => (.error (.trpc .NOT_FOUND "订单不存在"), db)
  | some order =>
    (.ok ⟨order.orderNo, order.status, order.amount, order.payTime⟩, db)

/-- A sample user row for concrete instantiations. -/
def sampleUser : iUser := ⟨7, "clerk_abc", some "Ada"⟩

/-- A pending gold-coin order with stored `goldCoin` 500 and amount
"9.99" (the scenario of the specification). -/
def sampleGoldOrder : iRecordGoldCoin :=
  { orderNo := "1700000000000042"
    buyUserId := 7
    buyNickname := some "Ada"
    recipientUserId := 7
    amount := "9.99"
    goldCoin := some 500
    payType := 3
    status := 0
    payTime := none }

/-- A settled (non-pending) VIP order. -/
def sampleSettledVipOrder : iRecordVip :=
  { orderNo := "1700000000000001"
    buyUserId := 7
    buyNickname := some "Ada"
    recipientUserId := 7
    vipLevel := some 2
    month := some 1
    amount := "19.99"
    payType := 3
    status := 1
    payTime := some 1700000100 }

/-- A database holding the sample user, the settled VIP order and the
pending gold-coin order. -/
def sampleDB : DB :=
  { iUserTable := [sampleUser]
    iRecordVipTable := [sampleSettledVipOrder]
    iRecordGoldCoinTable := [sampleGoldOrder]
    iRecordTranslateTable := [] }

/-- The rational 9.99 = 999/100, the provider-confirmed amount of the
specification scenario, written with an explicit constructor so that the
kernel can evaluate comparisons on it. -/
def rat9_99 : Rat := ⟨999, 100, by norm_num, by norm_num⟩

/-- A verifier stub that confirms the payment with amount 9.99. -/
def verifierOk : String → Rat → Except Err PayPalVerification :=
  fun _ _ => .ok ⟨true, some rat9_99, none⟩

/-- A verifier stub that rejects the payment. -/
def verifierRejects : String → Rat → Except Err PayPalVerification :=
  fun _ _ => .ok ⟨false, none, some "amount mismatch"⟩

/-- A verifier stub that throws. -/
def verifierThrows : String → Rat → Except Err PayPalVerification :=
  fun _ _ => .error (.external "paypal network error")

/-- A crediting delegate stub that always succeeds. -/
def rechargeOk : CreditCall → Except Err Unit := fun _ => .ok ()

/-- A crediting delegate stub that always throws. -/
def rechargeThrows : CreditCall → Except Err Unit :=
  fun _ => .error (.external "recharge storage failure")

/-- The scenario `completePayment` input: the pending gold-coin order. -/
def sampleCompleteInput : CompleteInput :=
  { orderNo := "1700000000000042"
    paypalOrderId := "PAY-123"
    productType := .goldCoin
    expectedAmount := rat9_99 }

/-- C1: for every order whose stored status is not 0 (pending), a
`completePayment` call that reaches the order (provider verification
succeeded) throws `BAD_REQUEST` ("订单状态异常", the InvalidState
signal) and dispatches no crediting delegate; the database is
unchanged. -/
theorem completePayment_nonpending_invalid_state
    (verify : String → Rat → Except Err PayPalVerification)
    (recharge : CreditCall → Except Err Unit)
    (db : DB) (input : CompleteInput)
    (v : PayPalVerification) (order : OrderRow)
    (hverify : verify input.paypalOrderId input.expectedAmount = .ok v)
    (hver : v.verified = true)
    (horder : findOrder db input.productType input.orderNo = some order)
    (hstatus : order.status ≠ 0) :
    completePayment verify recharge db input =
      ⟨.error (.trpc .BAD_REQUEST "订单状态异常"), [], db⟩ := by
  simp [completePayment, completePaymentBody, hverify, hver, horder, hstatus,
    catchLogRethrow]

/-- Witness for C1: the settled VIP order of the sample database. -/
theorem completePayment_nonpending_invalid_state_witness :
    completePayment verifierOk rechargeOk sampleDB
        ⟨"1700000000000001", "PAY-777", .vip, rat9_99⟩ =
      ⟨.error (.trpc .BAD_REQUEST "订单状态异常"), [], sampleDB⟩ :=
  completePayment_nonpending_invalid_state verifierOk rechargeOk sampleDB
    ⟨"1700000000000001", "PAY-777", .vip, rat9_99⟩
    ⟨true, some rat9_99, none⟩ (.ofVip sampleSettledVipOrder)
    (by decide) (by decide) (by decide) (by decide)

/-- C4: whenever the provider verifier returns `verified: false`,
`completePayment` throws `PAYMENT_FAILED` (message
`verificationResult.error || "Payment verification failed"`), no
crediting delegate is dispatched, and the database — in particular
every stored order, still pending — is unchanged. -/
theorem completePayment_verify_rejected
    (verify : String → Rat → Except Err PayPalVerification)
    (recharge : CreditCall → Except Err Unit)
    (db : DB) (input : CompleteInput) (v : PayPalVerification)
    (hverify : verify input.paypalOrderId input.expectedAmount = .ok v)
    (hver : v.verified = false) :
    completePayment verify recharge db input =
      ⟨.error (.trpc .PAYMENT_FAILED
          (jsOrDefault v.error "Payment verification failed")), [], db⟩ := by
  simp [completePayment, completePaymentBody, hverify, hver, catchLogRethrow]

/-- Witness for C4: a rejecting verifier on the pending gold-coin
order. -/
theorem completePayment_verify_rejected_witness :
    completePayment verifierRejects rechargeOk sampleDB sampleCompleteInput =
      ⟨.error (.trpc .PAYMENT_FAILED
          (jsOrDefault (some "amount mismatch") "Payment verification failed")),
        [], sampleDB⟩ :=
  completePayment_verify_rejected verifierRejects rechargeOk sampleDB
    sampleCompleteInput ⟨false, none, some "amount mismatch"⟩
    (by decide) (by decide)

/-- C5: when no order with the given `orderNo` exists in the table
selected by `productType` (and provider verification succeeded, the
step performed first), `completePayment` throws `NOT_FOUND`
("订单不存在") and dispatches no crediting delegate. -/
theorem completePayment_order_not_found
    (verify : String → Rat → Except Err PayPalVerification)
    (recharge : CreditCall → Except Err Unit)
    (db : DB) (input : CompleteInput) (v : PayPalVerification)
    (hverify : verify input.paypalOrderId input.expectedAmount = .ok v)
    (hver : v.verified = true)
    (hnone : findOrder db input.productType input.orderNo = none) :
    completePayment verify recharge db input =
      ⟨.error (.trpc .NOT_FOUND "订单不存在"), [], db⟩ := by
  simp [completePayment, completePaymentBody, hverify, hver, hnone,
    catchLogRethrow]

/-- Witness for C5: an unknown order number. -/
theorem completePayment_order_not_found_witness :
    completePayment verifierOk rechargeOk sampleDB
        ⟨"no-such-order", "PAY-123", .goldCoin, rat9_99⟩ =
      ⟨.error (.trpc .NOT_FOUND "订单不存在"), [], sampleDB⟩ :=
  completePayment_order_not_found verifierOk rechargeOk sampleDB
    ⟨"no-such-order", "PAY-123", .goldCoin, rat9_99⟩
    ⟨true, some rat9_99, none⟩ (by decide) (by decide) (by decide)

/-- C2: when `completePayment` reaches the crediting step (verification
succeeded, order found, order pending), exactly one crediting delegate
call is dispatched, carrying the order number, the payload read from
the stored order row (`vipLevel`/`month`, `goldCoin`, or
`characterNum` — not anything from the request), the
provider-confirmed `verificationResult.amount` (not the
caller-supplied `expectedAmount`), and the PayPal order id; and when
the delegate succeeds the call returns
`{success: true, verificationResult}`. -/
theorem completePayment_credits_stored_payload
    (verify : String → Rat → Except Err PayPalVerification)
    (recharge : CreditCall → Except Err Unit)
    (db : DB) (input : CompleteInput)
    (v : PayPalVerification) (order : OrderRow)
    (hverify : verify input.paypalOrderId input.expectedAmount = .ok v)
    (hver : v.verified = true)
    (horder : findOrder db input.productType input.orderNo = some order)
    (hstatus : order.status = 0) :
    (completePayment verify recharge db input).credits =
      [{ orderNo := input.orderNo
         payload :=
           match input.productType with
           | .vip | .svip => .vip order.vipLevel order.month
           | .goldCoin => .goldCoin order.goldCoin
           | .translate => .translate order.characterNum
         amount := v.amount
         paypalOrderId := input.paypalOrderId }] ∧
    (recharge (mkCreditCall input v order) = .ok () →
      (completePayment verify recharge db input).result = .ok ⟨true, v⟩) := by
  constructor
  · have hcred : (completePayment verify recharge db input).credits =
        [mkCreditCall input v order] := by
      cases hr : recharge (mkCreditCall input v order) <;>
        simp [completePayment, completePaymentBody, hverify, hver, horder,
          hstatus, hr]
    rw [hcred]
    rfl
  · intro hr
    simp [completePayment, completePaymentBody, hverify, hver, horder,
      hstatus, hr, catchLogRethrow]

/-- Witness for C2, the specification scenario: pending gold-coin order
with stored `goldCoin` 500 and amount "9.99", verifier confirming with
amount 9.99 — the delegate is invoked exactly once with
`(orderNo, 500, 9.99, confirmationId)` and the call succeeds. -/
theorem completePayment_credits_stored_payload_witness :
    (completePayment verifierOk rechargeOk sampleDB sampleCompleteInput).credits =
      [{ orderNo := "1700000000000042"
         payload := .goldCoin (some 500)
         amount := some rat9_99
         paypalOrderId := "PAY-123" }] ∧
    (completePayment verifierOk rechargeOk sampleDB sampleCompleteInput).result =
      .ok ⟨true, ⟨true, some rat9_99, none⟩⟩ :=
  have h := completePayment_credits_stored_payload verifierOk rechargeOk
    sampleDB sampleCompleteInput ⟨true, some rat9_99, none⟩
    (.ofGoldCoin sampleGoldOrder) (by decide) (by decide) (by decide) (by decide)
  ⟨h.1, h.2 (by decide)⟩

/-- C7: every error raised inside `completePayment` propagates to the
caller as the original error value: an error thrown by the provider
verifier, and an error thrown by the crediting delegate once the
crediting step is reached, each surface unmodified; the log-and-rethrow
`catch` preserves any error of the `try` body; and no automatic retry
occurs (at most one crediting dispatch per call). -/
theorem completePayment_propagates_errors
    (verify : String → Rat → Except Err PayPalVerification)
    (recharge : CreditCall → Except Err Unit)
    (db : DB) (input : CompleteInput) :
    (∀ e, verify input.paypalOrderId input.expectedAmount = .error e →
      (completePayment verify recharge db input).result = .error e) ∧
    (∀ v order e, verify input.paypalOrderId input.expectedAmount = .ok v →
      v.verified = true →
      findOrder db input.productType input.orderNo = some order →
      order.status = 0 →
      recharge (mkCreditCall input v order) = .error e →
      (completePayment verify recharge db input).result = .error e) ∧
    (∀ e, (completePaymentBody verify recharge db input).result = .error e →
      (completePayment verify recharge db input).result = .error e) ∧
    (completePayment verify recharge db input).credits.length ≤ 1 := by
  refine ⟨?_, ?_, ?_, ?_⟩
  · intro e he
    simp [completePayment, completePaymentBody, he, catchLogRethrow]
  · intro v order e hverify hver horder hstatus hr
    simp [completePayment, completePaymentBody, hverify, hver, horder,
      hstatus, hr, catchLogRethrow]
  · intro e he
    simp [completePayment, he, catchLogRethrow]
  · unfold completePayment completePaymentBody
    cases verify input.paypalOrderId input.expectedAmount with
    | error e => simp
    | ok v =>
      by_cases hver : v.verified = false
      · simp [hver]
      · cases horder : findOrder db input.productType input.orderNo with
        | none => simp [hver, horder]
        | some order =>
          by_cases hstatus : order.status ≠ 0
          · simp [hver, horder, hstatus]
          · cases hr : recharge (mkCreditCall input v order) <;>
              simp [hver, horder, hstatus, hr]

/-- Witness for C7: a throwing verifier and a throwing crediting
delegate each surface their own error value unchanged. -/
theorem completePayment_propagates_errors_witness :
    (completePayment verifierThrows rechargeOk sampleDB sampleCompleteInput).result =
      .error (.external "paypal network error") ∧
    (completePayment verifierOk rechargeThrows sampleDB sampleCompleteInput).result =
      .error (.external "recharge storage failure") :=
  ⟨(completePayment_propagates_errors verifierThrows rechargeOk sampleDB
      sampleCompleteInput).1 (.external "paypal network error") (by decide),
   (completePayment_propagates_errors verifierOk rechargeThrows sampleDB
      sampleCompleteInput).2.1 ⟨true, some rat9_99, none⟩
      (.ofGoldCoin sampleGoldOrder) (.external "recharge storage failure")
      (by decide) (by decide) (by decide) (by decide) (by decide)⟩

/-- C8: `getOrderStatus` is a pure read: the database is returned
unchanged in every case; when no order with the given `orderNo` exists
in the table selected by `productType` it throws `NOT_FOUND`
("订单不存在"); otherwise it returns exactly the stored order's
`{orderNo, status, amount, payTime}`. -/
theorem getOrderStatus_pure_read (db : DB) (input : StatusInput) :
    (getOrderStatus db input).2 = db ∧
    (findOrder db input.productType input.orderNo = none →
      (getOrderStatus db input).1 = .error (.trpc .NOT_FOUND "订单不存在")) ∧
    (∀ order, findOrder db input.productType input.orderNo = some order →
      (getOrderStatus db input).1 =
        .ok ⟨order.orderNo, order.status, order.amount, order.payTime⟩) := by
  refine ⟨?_, ?_, ?_⟩
  · cases h : findOrder db input.productType input.orderNo <;>
      simp [getOrderStatus, h]
  · intro h
    simp [getOrderStatus, h]
  · intro order h
    simp [getOrderStatus, h]

/-- Witness for C8: the pending gold-coin order is reported as stored;
an unknown order number yields `NOT_FOUND`. -/
theorem getOrderStatus_pure_read_witness :
    (getOrderStatus sampleDB ⟨"1700000000000042", .goldCoin⟩).1 =
      .ok ⟨"1700000000000042", 0, "9.99", none⟩ ∧
    (getOrderStatus sampleDB ⟨"no-such-order", .goldCoin⟩).1 =
      .error (.trpc .NOT_FOUND "订单不存在") ∧
    (getOrderStatus sampleDB ⟨"1700000000000042", .goldCoin⟩).2 = sampleDB :=
  ⟨(getOrderStatus_pure_read sampleDB ⟨"1700000000000042", .goldCoin⟩).2.2
      (.ofGoldCoin sampleGoldOrder) (by decide),
   (getOrderStatus_pure_read sampleDB ⟨"no-such-order", .goldCoin⟩).2.1
      (by decide),
   (getOrderStatus_pure_read sampleDB ⟨"1700000000000042", .goldCoin⟩).1⟩

/-- C6: `initializePayment` throws `NOT_FOUND` ("用户不存在") when the
caller's account cannot be resolved, leaving the database untouched;
and when the single insert fails it throws `INTERNAL_SERVER_ERROR`
("创建订单失败") with the database untouched — no partial side
effects in either case. -/
theorem initializePayment_failure_no_side_effects
    (db : DB) (userId orderNo : String) (insertFails : Bool)
    (input : InitInput) :
    (db.iUserTable.find? (fun u => u.clerkId == userId) = none →
      initializePayment db userId orderNo insertFails input =
        (.error (.trpc .NOT_FOUND "用户不存在"), db)) ∧
    (∀ user, db.iUserTable.find? (fun u => u.clerkId == userId) = some user →
      insertFails = true →
      initializePayment db userId orderNo insertFails input =
        (.error (.trpc .INTERNAL_SERVER_ERROR "创建订单失败"), db)) := by
  constructor
  · intro h
    simp [initializePayment, h]
  · intro user h hfail
    simp [initializePayment, h, hfail]

/-- Witness for C6: an unresolvable Clerk id, and a failing insert for
the resolvable one. -/
theorem initializePayment_failure_no_side_effects_witness :
    initializePayment sampleDB "clerk_unknown" "1700000000000777" false
        ⟨"19.99", .vip, ⟨some 2, some 3, none, none, none⟩⟩ =
      (.error (.trpc .NOT_FOUND "用户不存在"), sampleDB) ∧
    initializePayment sampleDB "clerk_abc" "1700000000000777" true
        ⟨"19.99", .vip, ⟨some 2, some 3, none, none, none⟩⟩ =
      (.error (.trpc .INTERNAL_SERVER_ERROR "创建订单失败"), sampleDB) :=
  ⟨(initializePayment_failure_no_side_effects sampleDB "clerk_unknown"
      "1700000000000777" false ⟨"19.99", .vip, ⟨some 2, some 3, none, none, none⟩⟩).1
      (by decide),
   (initializePayment_failure_no_side_effects sampleDB "clerk_abc"
      "1700000000000777" true ⟨"19.99", .vip, ⟨some 2, some 3, none, none, none⟩⟩).2
      sampleUser (by decide) rfl⟩

/-- C10: every order row present after an `initializePayment` call is
either a pre-existing row or has `recipientUserId` equal to
`buyUserId` (no gifting through this interface) and `payType` 3
(PayPal). -/
theorem initializePayment_recipient_paytype_invariant
    (db : DB) (userId orderNo : String) (insertFails : Bool)
    (input : InitInput) :
    (∀ r : iRecordVip,
      r ∈ (initializePayment db userId orderNo insertFails input).2.iRecordVipTable →
      r ∈ db.iRecordVipTable ∨
        (r.recipientUserId = r.buyUserId ∧ r.payType = 3)) ∧
    (∀ r : iRecordGoldCoin,
      r ∈ (initializePayment db userId orderNo insertFails input).2.iRecordGoldCoinTable →
      r ∈ db.iRecordGoldCoinTable ∨
        (r.recipientUserId = r.buyUserId ∧ r.payType = 3)) ∧
    (∀ r : iRecordTranslate,
      r ∈ (initializePayment db userId orderNo insertFails input).2.iRecordTranslateTable →
      r ∈ db.iRecordTranslateTable ∨
        (r.recipientUserId = r.buyUserId ∧ r.payType = 3)) := by
  unfold initializePayment
  cases hu : db.iUserTable.find? (fun u => u.clerkId == userId) with
  | none =>
    simp only []
    exact ⟨fun r hr => Or.inl hr, fun r hr => Or.inl hr, fun r hr => Or.inl hr⟩
  | some user =>
    cases insertFails with
    | true =>
      simp only [if_pos rfl]
      exact ⟨fun r hr => Or.inl hr, fun r hr => Or.inl hr, fun r hr => Or.inl hr⟩
    | false =>
      cases hpt : input.productType <;>
        refine ⟨?_, ?_, ?_⟩ <;> intro r hr <;>
          simp_all [List.mem_append] <;>
            rcases hr with hr | hr <;> simp_all

/-- Witness for C10: the row inserted for a VIP purchase by the sample
user satisfies the invariant. -/
theorem initializePayment_recipient_paytype_invariant_witness :
    (⟨"1700000000000999", 7, some "Ada", 7, some 2, some 3, "19.99", 3, 0,
        none⟩ : iRecordVip) ∈ sampleDB.iRecordVipTable ∨
      ((7 : Nat) = 7 ∧ (3 : Int) = 3) :=
  (initializePayment_recipient_paytype_invariant sampleDB "clerk_abc"
      "1700000000000999" false ⟨"19.99", .vip, ⟨some 2, some 3, none, none, none⟩⟩).1
    ⟨"1700000000000999", 7, some "Ada", 7, some 2, some 3, "19.99", 3, 0, none⟩
    (by decide)

/-- C9: `vip` and `svip` are operationally indistinguishable: all three
operations behave identically under either product type, with all
other inputs fixed — both select the `iRecordVip` table and the
`rechargeVip` delegate. -/
theorem vip_svip_indistinguishable
    (verify : String → Rat → Except Err PayPalVerification)
    (recharge : CreditCall → Except Err Unit)
    (db : DB) (userId orderNo : String) (insertFails : Bool)
    (ii : InitInput) (ci : CompleteInput) (si : StatusInput) :
    initializePayment db userId orderNo insertFails
        { ii with productType := .vip } =
      initializePayment db userId orderNo insertFails
        { ii with productType := .svip } ∧
    completePayment verify recharge db { ci with productType := .vip } =
      completePayment verify recharge db { ci with productType := .svip } ∧
    getOrderStatus db { si with productType := .vip } =
      getOrderStatus db { si with productType := .svip } :=
  ⟨rfl, rfl, rfl⟩

/-- C3: for every `initializePayment` input whose buyer resolves and
whose generated `orderNo` is fresh for the selected table, exactly one
new order row is appended, in the table selected by `productType`,
with `status` 0 and its fields equal to the input (amount and the
product-specific payload), the other tables are untouched, the call
returns `{success: true, orderNo}`, and `getOrderStatus` on the
returned `orderNo` finds exactly that row (round-trip). -/
theorem initializePayment_roundtrip
    (db : DB) (userId orderNo : String) (input : InitInput) (user : iUser)
    (huser : db.iUserTable.find? (fun u => u.clerkId == userId) = some user)
    (hfresh : findOrder db input.productType orderNo = none) :
    (initializePayment db userId orderNo false input).1 =
      .ok ⟨true, orderNo⟩ ∧
    (match input.productType with
     | .vip | .svip =>
       (initializePayment db userId orderNo false input).2 =
         { db with iRecordVipTable := db.iRecordVipTable ++
             [{ orderNo := orderNo, buyUserId := user.id,
                buyNickname := user.nickname, recipientUserId := user.id,
                vipLevel := input.productDetails.vipLevel,
                month := input.productDetails.month,
                amount := input.amount, payType := 3, status := 0,
                payTime := none }] }
     | .goldCoin =>
       (initializePayment db userId orderNo false input).2 =
         { db with iRecordGoldCoinTable := db.iRecordGoldCoinTable ++
             [{ orderNo := orderNo, buyUserId := user.id,
                buyNickname := user.nickname, recipientUserId := user.id,
                amount := input.amount,
                goldCoin := input.productDetails.goldCoin,
                payType := 3, status := 0, payTime := none }] }
     | .translate =>
       (initializePayment db userId orderNo false input).2 =
         { db with iRecordTranslateTable := db.iRecordTranslateTable ++
             [{ orderNo := orderNo, buyUserId := user.id,
                buyNickname := user.nickname, recipientUserId := user.id,
                characterNum := input.productDetails.character,
                amount := input.amount, payType := 3, status := 0,
                payTime := none }] }) ∧
    getOrderStatus (initializePayment db userId orderNo false input).2
        ⟨orderNo, input.productType⟩ =
      (.ok ⟨orderNo, 0, input.amount, none⟩,
        (initializePayment db userId orderNo false input).2) := by
  cases hpt : input.productType with
  | vip =>
    have hfind : db.iRecordVipTable.find? (fun o => o.orderNo == orderNo) =
        none := by
      simpa [findOrder, hpt] using hfresh
    refine ⟨?_, ?_, ?_⟩ <;>
      simp [initializePayment, getOrderStatus, findOrder, huser, hpt,
        List.find?_append, hfind, OrderRow.orderNo, OrderRow.status,
        OrderRow.amount, OrderRow.payTime]
  | svip =>
    have hfind : db.iRecordVipTable.find? (fun o => o.orderNo == orderNo) =
        none := by
      simpa [findOrder, hpt] using hfresh
    refine ⟨?_, ?_, ?_⟩ <;>
      simp [initializePayment, getOrderStatus, findOrder, huser, hpt,
        List.find?_append, hfind, OrderRow.orderNo, OrderRow.status,
        OrderRow.amount, OrderRow.payTime]
  | goldCoin =>
    have hfind : db.iRecordGoldCoinTable.find? (fun o => o.orderNo == orderNo) =
        none := by
      simpa [findOrder, hpt] using hfresh
    refine ⟨?_, ?_, ?_⟩ <;>
      simp [initializePayment, getOrderStatus, findOrder, huser, hpt,
        List.find?_append, hfind, OrderRow.orderNo, OrderRow.status,
        OrderRow.amount, OrderRow.payTime]
  | translate =>
    have hfind : db.iRecordTranslateTable.find? (fun o => o.orderNo == orderNo) =
        none := by
      simpa [findOrder, hpt] using hfresh
    refine ⟨?_, ?_, ?_⟩ <;>
      simp [initializePayment, getOrderStatus, findOrder, huser, hpt,
        List.find?_append, hfind, OrderRow.orderNo, OrderRow.status,
        OrderRow.amount, OrderRow.payTime]

/-- Witness for C3: a fresh gold-coin order for the sample user
round-trips through `getOrderStatus`. -/
theorem initializePayment_roundtrip_witness :
    (initializePayment sampleDB "clerk_abc" "1700000000000999" false
        ⟨"4.99", .goldCoin, ⟨none, none, some 300, none, none⟩⟩).1 =
      .ok ⟨true, "1700000000000999"⟩ ∧
    (initializePayment sampleDB "clerk_abc" "1700000000000999" false
        ⟨"4.99", .goldCoin, ⟨none, none, some 300, none, none⟩⟩).2 =
      { sampleDB with iRecordGoldCoinTable := sampleDB.iRecordGoldCoinTable ++
          [{ orderNo := "1700000000000999", buyUserId := 7,
             buyNickname := some "Ada", recipientUserId := 7,
             amount := "4.99", goldCoin := some 300, payType := 3,
             status := 0, payTime := none }] } ∧
    getOrderStatus
        (initializePayment sampleDB "clerk_abc" "1700000000000999" false
          ⟨"4.99", .goldCoin, ⟨none, none, some 300, none, none⟩⟩).2
        ⟨"1700000000000999", .goldCoin⟩ =
      (.ok ⟨"1700000000000999", 0, "4.99", none⟩,
        (initializePayment sampleDB "clerk_abc" "1700000000000999" false
          ⟨"4.99", .goldCoin, ⟨none, none, some 300, none, none⟩⟩).2) :=
  initializePayment_roundtrip sampleDB "clerk_abc" "1700000000000999"
    ⟨"4.99", .goldCoin, ⟨none, none, some 300, none, none⟩⟩ sampleUser
    (by decide) (by decide)
